import Mathlib

/-!
Verification development for the glance client library
(src/glance/client.py and src/glance/registry/client.py).

The two client classes are shallowly embedded: each client method is a
Lean function from its Python arguments (and, where the method reads the
HTTP response, an explicit `Response` value standing for the response the
transport returned without raising) to the request it hands to
`do_request` together with the value the method returns.  Python dicts
are modelled as association lists with unique insertion-order keys,
Python/JSON values by the inductive type `JVal`, Python exceptions by
`PyError`, and file-like data streams by `DataStream`.
-/

namespace Glance

/-- Python/JSON values as they appear in request parameters, headers and
JSON bodies.  Numbers are restricted to the integer fragment, which is
all the client code produces (sizes, counts). -/
inductive JVal : Type
  | null : JVal
  | bool (b : Bool) : JVal
  | int (n : Int) : JVal
  | str (s : String) : JVal
  | arr (xs : List JVal) : JVal
  | obj (kvs : List (String × JVal)) : JVal
  deriving Repr

/-- Python truthiness (`bool(v)`) for the values of `JVal`. -/
def JVal.truthy : JVal → Bool
  | .null => false
  | .bool b => b
  | .int n => n != 0
  | .str s => s != ""
  | .arr xs => !xs.isEmpty
  | .obj kvs => !kvs.isEmpty

/-- Dictionary lookup on an association list (Python `d[k]` when the key
is present, `k in d` when tested for membership). -/
def lookup (kvs : List (String × JVal)) (k : String) : Option JVal :=
  match kvs with
  | [] => none
  | (k', v) :: rest => if k' = k then some v else lookup rest k

/-- Dictionary assignment `d[k] = v` on an association list: replaces the
value of an existing key in place, otherwise appends the new key at the
end, mirroring Python dict insertion-order semantics. -/
def setKey (kvs : List (String × JVal)) (k : String) (v : JVal) :
    List (String × JVal) :=
  match kvs with
  | [] => [(k, v)]
  | (k', v') :: rest =>
      if k' = k then (k, v) :: rest else (k', v') :: setKey rest k v

/-- Python exceptions that the embedded client code can raise. -/
inductive PyError : Type
  | valueError : PyError
  | keyError (k : String) : PyError
  | typeError : PyError
  | ioError (errno : Nat) : PyError
  | notFound : PyError
  deriving Repr, DecidableEq

/-- `errno.ESPIPE` (illegal seek on a pipe). -/
def ESPIPE : Nat := 29

/-- A seekable or pipe-like data stream handed to `add_image`.  `size` is
the total number of bytes, `pos` the current offset.  `seekErrno = none`
models a regular seekable file; `seekErrno = some e` models a stream
whose `seek` raises `IOError` with that errno (e.g. `ESPIPE` for a
pipe). -/
structure DataStream : Type where
  size : Nat
  pos : Nat
  seekErrno : Option Nat
  deriving Repr, DecidableEq

/-- `stream.seek(0, os.SEEK_END)`: moves the offset to the end, or raises
the configured `IOError` errno. -/
def DataStream.seekEnd (d : DataStream) : Except Nat DataStream :=
  match d.seekErrno with
  | some e => .error e
  | none => .ok { d with pos := d.size }

/-- `stream.seek(0)`: moves the offset back to the start, or raises the
configured `IOError` errno. -/
def DataStream.seekStart (d : DataStream) : Except Nat DataStream :=
  match d.seekErrno with
  | some e => .error e
  | none => .ok { d with pos := 0 }

/-- `stream.tell()`: the current offset. -/
def DataStream.tell (d : DataStream) : Nat := d.pos

/-- The `image_data` argument of `add_image`/`update_image`: either a raw
string of image bytes or a file-like object. -/
inductive ImageData : Type
  | strData (s : String) : ImageData
  | streamData (d : DataStream) : ImageData
  deriving Repr, DecidableEq

/-- Python truthiness of an `image_data` value: the empty string is
falsy, every file-like object is truthy. -/
def ImageData.truthy : ImageData → Bool
  | .strData s => s != ""
  | .streamData _ => true

/-- Truthiness of the optional `image_data` argument (`None` is falsy). -/
def truthyOpt : Option ImageData → Bool
  | none => false
  | some d => d.truthy

/-- A request body: either a JSON document (the structure that
`json.dumps` serialises) or raw image data. -/
inductive Body : Type
  | json (v : JVal) : Body
  | data (d : ImageData) : Body
  deriving Repr

/-- The request a client method hands to `self.do_request`: method,
action path (before any doc-root prefixing), optional body, headers and
query parameters. -/
structure Request : Type where
  method : String
  path : String
  body : Option Body := none
  headers : List (String × JVal) := []
  params : List (String × JVal) := []
  deriving Repr

/-- The response the base transport returned without raising: status code
and the raw body text that `res.read()` yields. -/
structure Response : Type where
  status : Nat
  body : String
  deriving Repr, DecidableEq

/-! ### The `json` module

The client methods decode response bodies with `json.loads(...)` and
serialise request bodies with `json.dumps(...)`.  `json.loads` is
embedded as an executable parser over the integer fragment of JSON (the
only fragment the server side of this protocol produces); on any text it
cannot parse it fails like `json.loads` does, with `ValueError`.
`json.dumps` is kept at the level of the JSON document structure: a
request body `Body.json v` stands for the serialisation of `v`. -/

/-- Skips JSON whitespace. -/
def skipWs : List Char → List Char
  | [] => []
  | c :: rest =>
      if c = ' ' ∨ c = '\t' ∨ c = '\n' ∨ c = '\r' then skipWs rest
      else c :: rest

/-- Parses the remaining characters of a JSON string literal after the
opening quote, handling the single-character escapes; returns the string
contents and the characters after the closing quote. -/
def parseStringChars : List Char → Option (List Char × List Char)
  | [] => none
  | '"' :: rest => some ([], rest)
  | '\\' :: e :: rest =>
      ((match e with
        | '"' => some '"'
        | '\\' => some '\\'
        | '/' => some '/'
        | 'n' => some '\n'
        | 't' => some '\t'
        | 'r' => some '\r'
        | _ => none : Option Char)).bind fun c =>
      (parseStringChars rest).map fun p => (c :: p.1, p.2)
  | c :: rest =>
      if c = '"' ∨ c = '\\' then none
      else (parseStringChars rest).map fun p => (c :: p.1, p.2)

/-- Accumulates decimal digits. -/
def parseDigitsAux : List Char → Nat → Nat × List Char
  | [], acc => (acc, [])
  | c :: rest, acc =>
      if c.isDigit then parseDigitsAux rest (acc * 10 + (c.toNat - 48))
      else (acc, c :: rest)

/-- Parses a nonempty run of decimal digits. -/
def parseNat (l : List Char) : Option (Nat × List Char) :=
  match l with
  | c :: rest =>
      if c.isDigit then some (parseDigitsAux rest (c.toNat - 48)) else none
  | [] => none

mutual

/-- Parses one JSON value; `fuel` bounds the nesting depth. -/
def parseVal : Nat → List Char → Option (JVal × List Char)
  | 0, _ => none
  | Nat.succ fuel, l =>
      match skipWs l with
      | 'n' :: 'u' :: 'l' :: 'l' :: rest => some (.null, rest)
      | 't' :: 'r' :: 'u' :: 'e' :: rest => some (.bool true, rest)
      | 'f' :: 'a' :: 'l' :: 's' :: 'e' :: rest => some (.bool false, rest)
      | '"' :: rest =>
          (parseStringChars rest).map fun p => (.str (String.mk p.1), p.2)
      | '[' :: rest =>
          (match skipWs rest with
            | ']' :: r => some (.arr [], r)
            | rest' =>
                (parseVal fuel rest').bind fun p =>
                (parseArrTail fuel p.2).map fun q =>
                  (JVal.arr (p.1 :: q.1), q.2))
      | '{' :: rest =>
          (match skipWs rest with
            | '}' :: r => some (.obj [], r)
            | rest' =>
                (parseMember fuel rest').bind fun p =>
                (parseObjTail fuel p.2).map fun q =>
                  (JVal.obj (p.1 :: q.1), q.2))
      | '-' :: rest =>
          (parseNat rest).map fun p => (JVal.int (-(p.1 : Int)), p.2)
      | c :: rest =>
          if c.isDigit then
            (parseNat (c :: rest)).map fun p => (JVal.int (p.1 : Int), p.2)
          else none
      | [] => none

/-- Parses the rest of a JSON array after one element. -/
def parseArrTail : Nat → List Char → Option (List JVal × List Char)
  | 0, _ => none
  | Nat.succ fuel, l =>
      match skipWs l with
      | ']' :: r => some ([], r)
      | ',' :: rest =>
          (parseVal fuel rest).bind fun p =>
          (parseArrTail fuel p.2).map fun q => (p.1 :: q.1, q.2)
      | _ => none

/-- Parses one `"key": value` member of a JSON object. -/
def parseMember : Nat → List Char → Option ((String × JVal) × List Char)
  | 0, _ => none
  | Nat.succ fuel, l =>
      match skipWs l with
      | '"' :: rest =>
          (parseStringChars rest).bind fun p =>
          (match skipWs p.2 with
            | ':' :: r2 =>
                (parseVal fuel r2).map fun q =>
                  ((String.mk p.1, q.1), q.2)
            | _ => none)
      | _ => none

/-- Parses the rest of a JSON object after one member. -/
def parseObjTail : Nat → List Char → Option (List (String × JVal) × List Char)
  | 0, _ => none
  | Nat.succ fuel, l =>
      match skipWs l with
      | '}' :: r => some ([], r)
      | ',' :: rest =>
          (parseMember fuel rest).bind fun p =>
          (parseObjTail fuel p.2).map fun q => (p.1 :: q.1, q.2)
      | _ => none

end

/-- `json.loads`: parses the full body text as one JSON document and
raises `ValueError` when the text is not valid JSON. -/
def json_loads (s : String) : Except PyError JVal :=
  match parseVal (s.length + 1) s.data with
  | some (v, rest) =>
      if (skipWs rest).isEmpty then .ok v else .error .valueError
  | none => .error .valueError

/-- Python subscription `parsed[k]` on a decoded JSON document: yields the
value of the key, raises `KeyError` when an object lacks the key and
`TypeError` when the document is not an object (Python rejects string
indices on lists and scalars). -/
def JVal.getItem (v : JVal) (k : String) : Except PyError JVal :=
  match v with
  | .obj kvs =>
      match lookup kvs k with
      | some x => .ok x
      | none => .error (.keyError k)
  | _ => .error .typeError

/-! ### Collaborators not under src/ -/

/-- Modelled from the spec: the Parameter Filter helper
(`BaseClient._extract_params`, which lives in `glance/common/client.py`,
not under src/).  Given a caller-supplied options mapping and the list of
names the endpoint recognises, it keeps exactly the recognised keys with
their values unchanged and silently drops every other key. -/
def extract_params (kwargs : List (String × JVal)) (allowed : List String) :
    List (String × JVal) :=
  kwargs.filter fun kv => allowed.contains kv.1

/-- Modelled from the spec: the supported query-parameter names
(`v1_images.SUPPORTED_PARAMS` / `server.SUPPORTED_PARAMS`, not under
src/) — the pagination and filter controls of section 3 of the spec. -/
def SUPPORTED_PARAMS : List String :=
  ["filters", "marker", "limit", "sort_key", "sort_dir"]

/-! ### V1Client (src/glance/client.py)

Each method is embedded as a function producing the request it passes to
`self.do_request` (method, action path, body, headers, params) together
with the value the method returns.  Methods that read the response take
the transport response as an explicit argument. -/

namespace V1Client

/-- `str.lstrip("/")`: removes every leading slash. -/
def lstripSlashes (s : String) : String :=
  String.mk (s.data.dropWhile fun c => c = '/')

/-- `V1Client.do_request` path construction: the configured doc root, one
slash, and the action with its leading slashes stripped. -/
def do_request_path (doc_root action : String) : String :=
  doc_root ++ "/" ++ lstripSlashes action

/-- `V1Client.get_cached_images`. -/
def get_cached_images (kwargs : List (String × JVal)) (res : Response) :
    Request × Except PyError JVal :=
  let params := extract_params kwargs SUPPORTED_PARAMS
  ({ method := "GET", path := "/cached_images", params := params },
   (json_loads res.body).bind fun v => v.getItem "cached_images")

/-- `V1Client.get_invalid_cached_images`: filters the options, then
overwrites `params["status"]` with `"invalid"`. -/
def get_invalid_cached_images (kwargs : List (String × JVal))
    (res : Response) : Request × Except PyError JVal :=
  let params := extract_params kwargs SUPPORTED_PARAMS
  let params := setKey params "status" (.str "invalid")
  ({ method := "GET", path := "/cached_images", params := params },
   (json_loads res.body).bind fun v => v.getItem "cached_images")

/-- `V1Client.get_incomplete_cached_images`: filters the options, then
overwrites `params["status"]` with `"incomplete"`. -/
def get_incomplete_cached_images (kwargs : List (String × JVal))
    (res : Response) : Request × Except PyError JVal :=
  let params := extract_params kwargs SUPPORTED_PARAMS
  let params := setKey params "status" (.str "incomplete")
  ({ method := "GET", path := "/cached_images", params := params },
   (json_loads res.body).bind fun v => v.getItem "cached_images")

/-- `V1Client.get_prefetching_cache_images`: filters the options, then
overwrites `params["status"]` with `"prefetching"`. -/
def get_prefetching_cache_images (kwargs : List (String × JVal))
    (res : Response) : Request × Except PyError JVal :=
  let params := extract_params kwargs SUPPORTED_PARAMS
  let params := setKey params "status" (.str "prefetching")
  ({ method := "GET", path := "/cached_images", params := params },
   (json_loads res.body).bind fun v => v.getItem "cached_images")

/-- `V1Client.clear_cached_images`: DELETE and decode `num_purged`. -/
def clear_cached_images (res : Response) :
    Request × Except PyError JVal :=
  ({ method := "DELETE", path := "/cached_images" },
   (json_loads res.body).bind fun v => v.getItem "num_purged")

/-- `V1Client.add_image` up to the point where the POST is handed to
`do_request`.  `meta_headers` is the output of the external
`utils.image_meta_to_http_headers` codec on `image_meta or {}`.  When
raw data is supplied the content type is set; when the data is a
file-like object with `seek`/`tell`, the length is discovered by seeking
to the end, reading the offset, and seeking back to the start, and both
`x-image-meta-size` and `content-length` are set to it.  An `IOError`
with errno `ESPIPE` from a seek is swallowed (the headers stay unset);
any other `IOError` propagates.  The request body is the (possibly
repositioned) data object itself. -/
def add_image (meta_headers : List (String × JVal))
    (image_data : Option ImageData) : Except PyError Request :=
  match image_data with
  | some d =>
      if d.truthy then
        let headers :=
          setKey meta_headers "content-type" (.str "application/octet-stream")
        match d with
        | .strData _ =>
            .ok { method := "POST", path := "/images",
                  body := some (.data d), headers := headers }
        | .streamData s =>
            match s.seekEnd with
            | .ok s1 =>
                let image_size := s1.tell
                match s1.seekStart with
                | .ok s2 =>
                    let headers :=
                      setKey headers "x-image-meta-size"
                        (.int (image_size : Int))
                    let headers :=
                      setKey headers "content-length"
                        (.int (image_size : Int))
                    .ok { method := "POST", path := "/images",
                          body := some (.data (.streamData s2)),
                          headers := headers }
                | .error e =>
                    if e = ESPIPE then
                      .ok { method := "POST", path := "/images",
                            body := some (.data (.streamData s1)),
                            headers := headers }
                    else .error (.ioError e)
            | .error e =>
                if e = ESPIPE then
                  .ok { method := "POST", path := "/images",
                        body := some (.data (.streamData s)),
                        headers := headers }
                else .error (.ioError e)
      else
        .ok { method := "POST", path := "/images",
              body := none, headers := meta_headers }
  | none =>
      .ok { method := "POST", path := "/images",
            body := none, headers := meta_headers }

/-- `V1Client.update_image` up to the point where the PUT is handed to
`do_request` (no length discovery here). -/
def update_image (image_id : String) (meta_headers : List (String × JVal))
    (image_data : Option ImageData) : Request :=
  if truthyOpt image_data then
    { method := "PUT", path := "/images/" ++ image_id,
      body := image_data.map .data,
      headers :=
        setKey meta_headers "content-type" (.str "application/octet-stream") }
  else
    { method := "PUT", path := "/images/" ++ image_id,
      body := none, headers := meta_headers }

/-- `V1Client._validate_assocs` on one association: requires
`member_id`, copies it, and adds `can_share` coerced with `bool(...)`
exactly when the caller supplied it; nothing else is copied. -/
def validate_assoc (assoc : List (String × JVal)) :
    Except PyError (List (String × JVal)) :=
  match lookup assoc "member_id" with
  | none => .error (.keyError "member_id")
  | some mid =>
      let assoc_data := [("member_id", mid)]
      match lookup assoc "can_share" with
      | some cs => .ok (setKey assoc_data "can_share" (.bool cs.truthy))
      | none => .ok assoc_data

/-- `V1Client._validate_assocs` over the whole argument list. -/
def validate_assocs :
    List (List (String × JVal)) →
      Except PyError (List (List (String × JVal)))
  | [] => .ok []
  | a :: rest =>
      (validate_assoc a).bind fun d =>
      (validate_assocs rest).map fun ds => d :: ds

/-- `V1Client.replace_members`: validates the associations, serialises
them as a JSON array, issues one PUT to `/images/{id}/members` and
returns `True`.  The response is ignored. -/
def replace_members (image_id : String)
    (assocs : List (List (String × JVal))) (_res : Response) :
    Except PyError (List Request × Bool) :=
  (validate_assocs assocs).map fun validated =>
    ([{ method := "PUT", path := "/images/" ++ image_id ++ "/members",
        body := some (.json (.arr (validated.map .obj))),
        headers := [("content-type", .str "application/json")] }],
     true)

/-- `V1Client.add_member`: PUT one association; with `can_share` equal to
`None` the body is empty and no header is set, otherwise the body is
`{"member": {"can_share": bool(can_share)}}`.  Returns `True`, ignoring
the response. -/
def add_member (image_id member_id : String) (can_share : Option JVal)
    (_res : Response) : Request × Bool :=
  match can_share with
  | none =>
      ({ method := "PUT",
         path := "/images/" ++ image_id ++ "/members/" ++ member_id },
       true)
  | some c =>
      ({ method := "PUT",
         path := "/images/" ++ image_id ++ "/members/" ++ member_id,
         body := some (.json (.obj
           [("member", .obj [("can_share", .bool c.truthy)])])),
         headers := [("content-type", .str "application/json")] },
       true)

/-- `V1Client.delete_member`: DELETE the association and return `True`,
ignoring the response. -/
def delete_member (image_id member_id : String) (_res : Response) :
    Request × Bool :=
  ({ method := "DELETE",
     path := "/images/" ++ image_id ++ "/members/" ++ member_id },
   true)

end V1Client

/-! ### RegistryClient (src/glance/registry/client.py) -/

namespace RegistryClient

/-- `RegistryClient` does not override `do_request`: the action path is
sent to the base client unprefixed. -/
def do_request_path (action : String) : String := action

/-- `RegistryClient.get_images`: GET `/images` with the filtered
parameters and decode the `images` envelope key. -/
def get_images (kwargs : List (String × JVal)) (res : Response) :
    Request × Except PyError JVal :=
  let params := extract_params kwargs SUPPORTED_PARAMS
  ({ method := "GET", path := "/images", params := params },
   (json_loads res.body).bind fun v => v.getItem "images")

/-- `RegistryClient.get_image`: GET `/images/{id}` and decode the
`image` envelope key. -/
def get_image (image_id : String) (res : Response) :
    Request × Except PyError JVal :=
  ({ method := "GET", path := "/images/" ++ image_id },
   (json_loads res.body).bind fun v => v.getItem "image")

/-- The registry envelope normalisation shared by `add_image` and
`update_image`: wrap the mapping as `{"image": metadata}` unless the
caller already supplied an `image` key. -/
def wrapImage (image_metadata : List (String × JVal)) :
    List (String × JVal) :=
  if (lookup image_metadata "image").isSome then image_metadata
  else [("image", .obj image_metadata)]

/-- `RegistryClient.add_image` up to the POST handed to `do_request`. -/
def add_image_request (image_metadata : List (String × JVal)) : Request :=
  { method := "POST", path := "/images",
    body := some (.json (.obj (wrapImage image_metadata))),
    headers := [("Content-Type", .str "application/json")] }

/-- `RegistryClient.update_image` up to the PUT handed to `do_request`:
same envelope normalisation, plus the purge-properties header when
`purge_props` is true. -/
def update_image_request (image_id : String)
    (image_metadata : List (String × JVal)) (purge_props : Bool) : Request :=
  let headers := [("Content-Type", (.str "application/json" : JVal))]
  let headers :=
    if purge_props then
      setKey headers "X-Glance-Registry-Purge-Props" (.str "true")
    else headers
  { method := "PUT", path := "/images/" ++ image_id,
    body := some (.json (.obj (wrapImage image_metadata))),
    headers := headers }

/-- `RegistryClient.replace_members`: wraps the mapping as
`{"memberships": [member_data]}` unless a `memberships` key is already
present, PUTs it to `/images/{id}/members` and returns
`res.status == 204`. -/
def replace_members (image_id : String)
    (member_data : List (String × JVal)) (res : Response) :
    Request × Bool :=
  let md :=
    if (lookup member_data "memberships").isSome then member_data
    else [("memberships", JVal.arr [.obj member_data])]
  ({ method := "PUT", path := "/images/" ++ image_id ++ "/members",
     body := some (.json (.obj md)),
     headers := [("Content-Type", .str "application/json")] },
   res.status == 204)

/-- `RegistryClient.add_member`: PUT one association; with `can_share`
equal to `None` the body is empty and no header is set, otherwise the
body is `{"member": {"can_share": can_share}}` with the value passed
through unchanged (no `bool(...)` coercion here).  Returns
`res.status == 204`. -/
def add_member (image_id member_id : String) (can_share : Option JVal)
    (res : Response) : Request × Bool :=
  match can_share with
  | none =>
      ({ method := "PUT",
         path := "/images/" ++ image_id ++ "/members/" ++ member_id },
       res.status == 204)
  | some c =>
      ({ method := "PUT",
         path := "/images/" ++ image_id ++ "/members/" ++ member_id,
         body := some (.json (.obj [("member", .obj [("can_share", c)])])),
         headers := [("Content-Type", .str "application/json")] },
       res.status == 204)

/-- `RegistryClient.delete_member`: DELETE the association and return
`res.status == 204`. -/
def delete_member (image_id member_id : String) (res : Response) :
    Request × Bool :=
  ({ method := "DELETE",
     path := "/images/" ++ image_id ++ "/members/" ++ member_id },
   res.status == 204)

end RegistryClient

/-- Modelled from the spec: the MalformedResponse failure category of the
error-handling design (section 7).  The code has no dedicated wrapper
class; the category collects the exceptions the decoding step actually
raises — `ValueError` from `json.loads` on an unparsable body,
`KeyError` when the envelope key is absent, `TypeError` when the parsed
document is not an object — and excludes the not-found and transport
failures. -/
def isMalformedError : PyError → Bool
  | .valueError => true
  | .keyError _ => true
  | .typeError => true
  | .ioError _ => false
  | .notFound => false

/-! ### Dictionary lemmas -/

/-- After `d[k] = v`, looking up `k` yields `v`, whatever was there. -/
theorem lookup_setKey_self (kvs : List (String × JVal)) (k : String)
    (v : JVal) : lookup (setKey kvs k v) k = some v := by
  induction kvs with
  | nil => simp [setKey, lookup]
  | cons hd tl ih =>
      obtain ⟨k', v'⟩ := hd
      by_cases h : k' = k
      · simp [setKey, lookup, h]
      · simp [setKey, lookup, h, ih]

/-- After `d[k'] = v` with `k' ≠ k`, looking up `k` is unchanged. -/
theorem lookup_setKey_ne (kvs : List (String × JVal)) (k k' : String)
    (v : JVal) (h : k' ≠ k) :
    lookup (setKey kvs k' v) k = lookup kvs k := by
  induction kvs with
  | nil => simp [setKey, lookup, h]
  | cons hd tl ih =>
      obtain ⟨ka, va⟩ := hd
      by_cases hk : ka = k'
      · subst hk
        simp [setKey, lookup, h]
      · by_cases hk2 : ka = k
        · subst hk2
          simp [setKey, lookup, hk]
        · simp [setKey, lookup, hk, hk2, ih]

/-- Every character list splits as its leading run of slashes followed by
its slash-stripped remainder. -/
theorem exists_replicate_append_dropWhile (l : List Char) :
    ∃ n, l = List.replicate n '/' ++ (l.dropWhile fun c => c = '/') := by
  induction l with
  | nil => exact ⟨0, rfl⟩
  | cons hd tl ih =>
      by_cases h : hd = '/'
      · obtain ⟨n, hn⟩ := ih
        subst h
        refine ⟨n + 1, ?_⟩
        rw [List.dropWhile_cons]
        simpa [List.replicate] using hn
      · exact ⟨0, by simp [List.dropWhile_cons, h]⟩

/-- The slash-stripped remainder never starts with a slash. -/
theorem head_dropWhile_slash_ne (l : List Char) (c : Char)
    (h : (l.dropWhile fun c => c = '/').head? = some c) : c ≠ '/' := by
  induction l with
  | nil => simp [List.dropWhile] at h
  | cons hd tl ih =>
      rw [List.dropWhile_cons] at h
      by_cases hh : hd = '/'
      · rw [if_pos (by simp [hh])] at h
        exact ih h
      · rw [if_neg (by simp [hh])] at h
        simp only [List.head?_cons, Option.some.injEq] at h
        exact h ▸ hh

/-! ### The claims -/

/-- C1: for every caller-supplied keyword-options mapping, the
cache-listing variants `get_invalid_cached_images`,
`get_incomplete_cached_images` and `get_prefetching_cache_images` issue
a GET to `/cached_images` whose query-parameter mapping binds `status`
to `invalid`, `incomplete` and `prefetching` respectively — also when
the caller supplied a conflicting `status` option, since the overwrite
happens after filtering. -/
theorem cache_listings_force_status
    (kwargs : List (String × JVal)) (res : Response) :
    ((V1Client.get_invalid_cached_images kwargs res).1.method = "GET" ∧
     (V1Client.get_invalid_cached_images kwargs res).1.path
        = "/cached_images" ∧
     lookup (V1Client.get_invalid_cached_images kwargs res).1.params
        "status" = some (.str "invalid")) ∧
    ((V1Client.get_incomplete_cached_images kwargs res).1.method = "GET" ∧
     (V1Client.get_incomplete_cached_images kwargs res).1.path
        = "/cached_images" ∧
     lookup (V1Client.get_incomplete_cached_images kwargs res).1.params
        "status" = some (.str "incomplete")) ∧
    ((V1Client.get_prefetching_cache_images kwargs res).1.method = "GET" ∧
     (V1Client.get_prefetching_cache_images kwargs res).1.path
        = "/cached_images" ∧
     lookup (V1Client.get_prefetching_cache_images kwargs res).1.params
        "status" = some (.str "prefetching")) :=
  ⟨⟨rfl, rfl, lookup_setKey_self _ _ _⟩,
   ⟨rfl, rfl, lookup_setKey_self _ _ _⟩,
   ⟨rfl, rfl, lookup_setKey_self _ _ _⟩⟩

/-- C6: `do_request` of the image-API client sends the doc root, a single
slash, and the action with all leading slashes removed (the action
splits as a run of slashes followed by the sent suffix, which does not
start with a slash); the registry client sends the action unprefixed;
and concretely root `/v1` with action `/images` yields `/v1/images`. -/
theorem do_request_path_spec (doc_root action : String) :
    V1Client.do_request_path doc_root action
      = doc_root ++ "/" ++ V1Client.lstripSlashes action ∧
    (∃ n, action.data = List.replicate n '/'
        ++ (V1Client.lstripSlashes action).data) ∧
    (∀ c, (V1Client.lstripSlashes action).data.head? = some c →
        c ≠ '/') ∧
    RegistryClient.do_request_path action = action ∧
    V1Client.do_request_path "/v1" "/images" = "/v1/images" :=
  ⟨rfl, exists_replicate_append_dropWhile action.data,
   fun c h => head_dropWhile_slash_ne action.data c h, rfl, rfl⟩

/-- C6 witness: the concrete prefixing instance, through the theorem. -/
theorem do_request_path_spec_witness :
    V1Client.do_request_path "/v1" "/images" = "/v1/images" :=
  (do_request_path_spec "/v1" "/images").2.2.2.2

/-- C4: for every seekable data stream (its seeks succeed) of length N
handed to `add_image`, the issued POST carries `content-length` and
`x-image-meta-size` both equal to N and `content-type` equal to
`application/octet-stream`, and its body is the stream repositioned at
offset 0. -/
theorem add_image_seekable_sets_length (mh : List (String × JVal))
    (s : DataStream) (h : s.seekErrno = none) :
    ∃ req, V1Client.add_image mh (some (.streamData s)) = .ok req ∧
      req.method = "POST" ∧ req.path = "/images" ∧
      lookup req.headers "content-length" = some (.int (s.size : Int)) ∧
      lookup req.headers "x-image-meta-size" = some (.int (s.size : Int)) ∧
      lookup req.headers "content-type"
        = some (.str "application/octet-stream") ∧
      req.body = some (.data (.streamData { s with pos := 0 })) := by
  obtain ⟨size, pos, se⟩ := s
  cases h
  refine ⟨_, rfl, rfl, rfl, ?_, ?_, ?_, rfl⟩
  · exact lookup_setKey_self _ _ _
  · rw [lookup_setKey_ne _ _ _ _ (by decide)]
    exact lookup_setKey_self _ _ _
  · rw [lookup_setKey_ne _ _ _ _ (by decide),
      lookup_setKey_ne _ _ _ _ (by decide)]
    exact lookup_setKey_self _ _ _

/-- C4 witness: a concrete seekable stream of length 5 at offset 3. -/
theorem add_image_seekable_sets_length_witness :
    ∃ req, V1Client.add_image []
        (some (.streamData ⟨5, 3, none⟩)) = .ok req ∧
      req.method = "POST" ∧ req.path = "/images" ∧
      lookup req.headers "content-length" = some (.int 5) ∧
      lookup req.headers "x-image-meta-size" = some (.int 5) ∧
      lookup req.headers "content-type"
        = some (.str "application/octet-stream") ∧
      req.body = some (.data (.streamData ⟨5, 0, none⟩)) :=
  add_image_seekable_sets_length [] ⟨5, 3, none⟩ rfl

/-- C5: when the seek of the stream raises `IOError` with errno `ESPIPE`,
`add_image` proceeds without raising and — the metadata headers
carrying neither key — the request carries neither `content-length` nor
`x-image-meta-size`; when seek raises any other errno, the `IOError`
propagates unchanged. -/
theorem add_image_pipe_tolerated (mh : List (String × JVal))
    (s : DataStream) (e : Nat) :
    (s.seekErrno = some ESPIPE →
      lookup mh "content-length" = none →
      lookup mh "x-image-meta-size" = none →
      ∃ req, V1Client.add_image mh (some (.streamData s)) = .ok req ∧
        req.body = some (.data (.streamData s)) ∧
        lookup req.headers "content-length" = none ∧
        lookup req.headers "x-image-meta-size" = none) ∧
    (s.seekErrno = some e → e ≠ ESPIPE →
      V1Client.add_image mh (some (.streamData s))
        = .error (.ioError e)) := by
  obtain ⟨size, pos, se⟩ := s
  constructor
  · intro h hcl hxs
    cases h
    refine ⟨{ method := "POST", path := "/images",
              body := some (.data (.streamData ⟨size, pos, some ESPIPE⟩)),
              headers := setKey mh "content-type"
                (.str "application/octet-stream") }, rfl, rfl, ?_, ?_⟩
    · rw [lookup_setKey_ne _ _ _ _ (by decide)]
      exact hcl
    · rw [lookup_setKey_ne _ _ _ _ (by decide)]
      exact hxs
  · intro h hne
    cases h
    simp [V1Client.add_image, ImageData.truthy, DataStream.seekEnd, hne]

/-- C5 witness: a pipe stream (errno `ESPIPE`) is tolerated with no
length headers; errno 5 propagates as an `IOError`. -/
theorem add_image_pipe_tolerated_witness :
    (∃ req, V1Client.add_image []
        (some (.streamData ⟨5, 0, some ESPIPE⟩)) = .ok req ∧
      req.body = some (.data (.streamData ⟨5, 0, some ESPIPE⟩)) ∧
      lookup req.headers "content-length" = none ∧
      lookup req.headers "x-image-meta-size" = none) ∧
    V1Client.add_image [] (some (.streamData ⟨5, 0, some 5⟩))
      = .error (.ioError 5) :=
  ⟨(add_image_pipe_tolerated [] ⟨5, 0, some ESPIPE⟩ 0).1 rfl rfl rfl,
   (add_image_pipe_tolerated [] ⟨5, 0, some 5⟩ 5).2 rfl (by decide)⟩

/-- C8: `add_image` and `update_image` of the registry client wrap the
metadata mapping of the caller under a top-level `image` key exactly when the
mapping lacks one, and send it unchanged when an `image` key is already
present. -/
theorem registry_image_envelope_wrapping (image_id : String)
    (md : List (String × JVal)) (purge_props : Bool) :
    (lookup md "image" = none →
      (RegistryClient.add_image_request md).body
        = some (.json (.obj [("image", .obj md)])) ∧
      (RegistryClient.update_image_request image_id md purge_props).body
        = some (.json (.obj [("image", .obj md)]))) ∧
    (∀ v, lookup md "image" = some v →
      (RegistryClient.add_image_request md).body
        = some (.json (.obj md)) ∧
      (RegistryClient.update_image_request image_id md purge_props).body
        = some (.json (.obj md))) := by
  constructor
  · intro h
    constructor <;>
      simp [RegistryClient.add_image_request,
        RegistryClient.update_image_request, RegistryClient.wrapImage, h]
  · intro v h
    constructor <;>
      simp [RegistryClient.add_image_request,
        RegistryClient.update_image_request, RegistryClient.wrapImage, h]

/-- C8 witness: a bare mapping is wrapped, a pre-wrapped one is sent
unchanged. -/
theorem registry_image_envelope_wrapping_witness :
    (RegistryClient.add_image_request [("name", JVal.str "x")]).body
      = some (.json (.obj [("image", .obj [("name", JVal.str "x")])])) ∧
    (RegistryClient.update_image_request "1"
        [("image", JVal.obj [("name", JVal.str "x")])] false).body
      = some (.json (.obj [("image", JVal.obj [("name", JVal.str "x")])])) :=
  ⟨((registry_image_envelope_wrapping "1" [("name", JVal.str "x")]
      false).1 rfl).1,
   ((registry_image_envelope_wrapping "1"
      [("image", JVal.obj [("name", JVal.str "x")])] false).2
      (JVal.obj [("name", JVal.str "x")]) rfl).2⟩

/-- C10: a falsy `image_data` value — `None` or the empty string — is
treated exactly as no data: the request body is empty and the headers
are exactly the metadata headers, with no content type and no length
keys added, for both `add_image` and `update_image`. -/
theorem falsy_image_data_means_no_body (image_id : String)
    (mh : List (String × JVal)) (d : Option ImageData)
    (h : truthyOpt d = false) :
    V1Client.add_image mh d
      = .ok { method := "POST", path := "/images",
              body := none, headers := mh } ∧
    V1Client.update_image image_id mh d
      = { method := "PUT", path := "/images/" ++ image_id,
          body := none, headers := mh } := by
  constructor
  · match d with
    | none => rfl
    | some (.strData s) =>
        have hs : (ImageData.strData s).truthy = false := by
          simpa [truthyOpt] using h
        simp [V1Client.add_image, hs]
    | some (.streamData ds) => simp [truthyOpt, ImageData.truthy] at h
  · simp [V1Client.update_image, h]

/-- C10 witness: `None` and the empty string, on both operations. -/
theorem falsy_image_data_means_no_body_witness :
    V1Client.add_image [("x-image-meta-name", JVal.str "n")] none
      = .ok { method := "POST", path := "/images", body := none,
              headers := [("x-image-meta-name", JVal.str "n")] } ∧
    V1Client.update_image "1" [("x-image-meta-name", JVal.str "n")]
        (some (.strData ""))
      = { method := "PUT", path := "/images/1", body := none,
          headers := [("x-image-meta-name", JVal.str "n")] } :=
  ⟨(falsy_image_data_means_no_body "1" _ none rfl).1,
   (falsy_image_data_means_no_body "1" _ (some (.strData "")) rfl).2⟩

/-- When every association carries a `member_id`, `_validate_assocs`
succeeds and produces, in order, associations holding exactly that
`member_id`, plus `can_share` coerced with `bool(...)` exactly when the
caller supplied it, and no other key. -/
theorem validate_assocs_spec (assocs : List (List (String × JVal)))
    (h : ∀ a ∈ assocs, (lookup a "member_id").isSome = true) :
    ∃ validated, V1Client.validate_assocs assocs = .ok validated ∧
      List.Forall₂ (fun a d =>
        lookup d "member_id" = lookup a "member_id" ∧
        lookup d "can_share"
          = (lookup a "can_share").map (fun c => JVal.bool c.truthy) ∧
        d.map Prod.fst
          = "member_id" ::
              (if (lookup a "can_share").isSome then ["can_share"] else []))
        assocs validated := by
  induction assocs with
  | nil => exact ⟨[], rfl, List.Forall₂.nil⟩
  | cons a rest ih =>
      have ha := h a (List.mem_cons_self a rest)
      obtain ⟨mid, hmid⟩ := Option.isSome_iff_exists.mp ha
      obtain ⟨vd, hvd, hall⟩ :=
        ih fun x hx => h x (List.mem_cons_of_mem a hx)
      cases hcs : lookup a "can_share" with
      | none =>
          refine ⟨[("member_id", mid)] :: vd, ?_, ?_⟩
          · simp [V1Client.validate_assocs, V1Client.validate_assoc,
              hmid, hcs, hvd, Except.bind, Except.map]
          · exact List.Forall₂.cons
              ⟨by simp [lookup, hmid], by simp [lookup, hcs],
               by simp [hcs]⟩ hall
      | some c =>
          refine ⟨[("member_id", mid), ("can_share", .bool c.truthy)] :: vd,
            ?_, ?_⟩
          · simp [V1Client.validate_assocs, V1Client.validate_assoc,
              hmid, hcs, hvd, setKey, Except.bind, Except.map]
          · exact List.Forall₂.cons
              ⟨by simp [lookup, hmid], by simp [lookup, hcs],
               by simp [hcs]⟩ hall

/-- C2: `replace_members` issues exactly one PUT to
`/images/{id}/members`; on the two example associations its JSON body is
the array with exactly the two documents of the claim, and in general —
whenever every association carries a `member_id` — each sent association
holds `member_id`, holds `can_share` coerced to a boolean exactly when
the caller supplied it, and holds no other key. -/
theorem replace_members_assoc_body (image_id : String)
    (assocs : List (List (String × JVal))) (res : Response)
    (h : ∀ a ∈ assocs, (lookup a "member_id").isSome = true) :
    V1Client.replace_members image_id
        [[("member_id", .str "a")],
         [("member_id", .str "b"), ("can_share", .bool true)]] res
      = .ok ([{ method := "PUT",
                path := "/images/" ++ image_id ++ "/members",
                body := some (.json (.arr
                  [.obj [("member_id", .str "a")],
                   .obj [("member_id", .str "b"),
                         ("can_share", .bool true)]])),
                headers := [("content-type", .str "application/json")] }],
             true) ∧
    ∃ validated,
      V1Client.replace_members image_id assocs res
        = .ok ([{ method := "PUT",
                  path := "/images/" ++ image_id ++ "/members",
                  body := some (.json (.arr (validated.map .obj))),
                  headers :=
                    [("content-type", .str "application/json")] }],
               true) ∧
      List.Forall₂ (fun a d =>
        lookup d "member_id" = lookup a "member_id" ∧
        lookup d "can_share"
          = (lookup a "can_share").map (fun c => JVal.bool c.truthy) ∧
        d.map Prod.fst
          = "member_id" ::
              (if (lookup a "can_share").isSome then ["can_share"] else []))
        assocs validated := by
  constructor
  · rfl
  · obtain ⟨validated, hv, hall⟩ := validate_assocs_spec assocs h
    exact ⟨validated,
      by simp [V1Client.replace_members, hv, Except.map], hall⟩

/-- C2 witness: the two example associations of the claim. -/
theorem replace_members_assoc_body_witness :
    V1Client.replace_members "42"
        [[("member_id", .str "a")],
         [("member_id", .str "b"), ("can_share", .bool true)]]
        { status := 204, body := "" }
      = .ok ([{ method := "PUT", path := "/images/42/members",
                body := some (.json (.arr
                  [.obj [("member_id", .str "a")],
                   .obj [("member_id", .str "b"),
                         ("can_share", .bool true)]])),
                headers := [("content-type", .str "application/json")] }],
             true) :=
  (replace_members_assoc_body "42"
    [[("member_id", .str "a")],
     [("member_id", .str "b"), ("can_share", .bool true)]]
    { status := 204, body := "" } (by decide)).1

/-- C7 counterexample: `add_member` of the registry client embeds the
supplied `can_share` value unchanged — with the truthy integer 1 the
body holds the integer 1, not the boolean that `bool(1)` coercion would
give — so the claim fails, as stated, for the registry client. -/
theorem registry_add_member_no_coercion_cex :
    (RegistryClient.add_member "i" "m" (some (JVal.int 1))
        { status := 204, body := "" }).1.body
      = some (.json (.obj [("member", .obj [("can_share", JVal.int 1)])]))
    ∧ JVal.int 1 ≠ JVal.bool ((JVal.int 1).truthy) :=
  ⟨rfl, fun h => JVal.noConfusion h⟩

/-- C7 amended: both clients PUT one association to
`/images/{imageId}/members/{memberId}`; with `can_share` unspecified the
body is empty with no content-type header; with `can_share` specified
the body is `{"member": {"can_share": b}}` where the image-API client
coerces b with `bool(...)` while the registry client embeds the supplied
value unchanged. -/
theorem add_member_request_spec (image_id member_id : String) (c : JVal)
    (res : Response) :
    (V1Client.add_member image_id member_id none res).1
      = { method := "PUT",
          path := "/images/" ++ image_id ++ "/members/" ++ member_id } ∧
    (RegistryClient.add_member image_id member_id none res).1
      = { method := "PUT",
          path := "/images/" ++ image_id ++ "/members/" ++ member_id } ∧
    (V1Client.add_member image_id member_id (some c) res).1
      = { method := "PUT",
          path := "/images/" ++ image_id ++ "/members/" ++ member_id,
          body := some (.json (.obj
            [("member", .obj [("can_share", .bool c.truthy)])])),
          headers := [("content-type", .str "application/json")] } ∧
    (RegistryClient.add_member image_id member_id (some c) res).1
      = { method := "PUT",
          path := "/images/" ++ image_id ++ "/members/" ++ member_id,
          body := some (.json (.obj [("member", .obj [("can_share", c)])])),
          headers := [("Content-Type", .str "application/json")] } :=
  ⟨rfl, rfl, rfl, rfl⟩

/-- C3 counterexample: `delete_member` of the image-API client returns
`True` for a response with status 200, although 200 is not 204 — so the
claim that both clients return true exactly on 204 fails, as stated, for
the image-API client. -/
theorem v1_membership_returns_true_cex :
    (V1Client.delete_member "1" "m" { status := 200, body := "" }).2
      = true ∧ (200 : Nat) ≠ 204 :=
  ⟨rfl, by decide⟩

/-- C3 amended: the membership mutations of the registry client
(`replace_members`, `add_member`, `delete_member`) return true exactly
when the response status is 204 and false on any other status the
transport surfaces without raising; the image-API counterparts
return `True` for every such response, whatever its status. -/
theorem membership_status_decoding (image_id member_id : String)
    (member_data : List (String × JVal)) (can_share : Option JVal)
    (assocs : List (List (String × JVal))) (res : Response) :
    ((RegistryClient.replace_members image_id member_data res).2 = true
        ↔ res.status = 204) ∧
    ((RegistryClient.add_member image_id member_id can_share res).2 = true
        ↔ res.status = 204) ∧
    ((RegistryClient.delete_member image_id member_id res).2 = true
        ↔ res.status = 204) ∧
    (V1Client.add_member image_id member_id can_share res).2 = true ∧
    (V1Client.delete_member image_id member_id res).2 = true ∧
    (V1Client.replace_members image_id assocs res).map Prod.snd
      = (V1Client.validate_assocs assocs).map fun _ => true := by
  refine ⟨?_, ?_, ?_, ?_, ?_, ?_⟩
  · simp [RegistryClient.replace_members]
  · cases can_share <;> simp [RegistryClient.add_member]
  · simp [RegistryClient.delete_member]
  · cases can_share <;> rfl
  · rfl
  · cases hv : V1Client.validate_assocs assocs <;>
      simp [V1Client.replace_members, hv, Except.map]

/-- C9: on each JSON-envelope-decoding operation, an unparsable body
fails with the `ValueError` that `json.loads` raises, and a parsed body
lacking the expected envelope key fails with a `KeyError` naming that
key; both lie in the malformed-response failure category, which excludes
the not-found and transport (IOError) failures. -/
theorem malformed_response_decoding (image_id : String)
    (kwargs : List (String × JVal)) (res : Response) :
    (json_loads res.body = .error .valueError →
      (RegistryClient.get_image image_id res).2 = .error .valueError ∧
      (RegistryClient.get_images kwargs res).2 = .error .valueError ∧
      (V1Client.get_cached_images kwargs res).2 = .error .valueError ∧
      (V1Client.clear_cached_images res).2 = .error .valueError) ∧
    (∀ kvs, json_loads res.body = .ok (.obj kvs) →
      (lookup kvs "image" = none →
        (RegistryClient.get_image image_id res).2
          = .error (.keyError "image")) ∧
      (lookup kvs "images" = none →
        (RegistryClient.get_images kwargs res).2
          = .error (.keyError "images")) ∧
      (lookup kvs "cached_images" = none →
        (V1Client.get_cached_images kwargs res).2
          = .error (.keyError "cached_images")) ∧
      (lookup kvs "num_purged" = none →
        (V1Client.clear_cached_images res).2
          = .error (.keyError "num_purged"))) ∧
    (isMalformedError .valueError = true ∧
     (∀ k, isMalformedError (.keyError k) = true) ∧
     isMalformedError .notFound = false ∧
     ∀ n, isMalformedError (.ioError n) = false) := by
  refine ⟨?_, ?_, rfl, fun _ => rfl, rfl, fun _ => rfl⟩
  · intro h
    refine ⟨?_, ?_, ?_, ?_⟩ <;>
      simp [RegistryClient.get_image, RegistryClient.get_images,
        V1Client.get_cached_images, V1Client.clear_cached_images, h,
        Except.bind]
  · intro kvs h
    refine ⟨?_, ?_, ?_, ?_⟩ <;> intro hk <;>
      simp [RegistryClient.get_image, RegistryClient.get_images,
        V1Client.get_cached_images, V1Client.clear_cached_images, h,
        Except.bind, JVal.getItem, hk]

/-- C9 witness: the body `not json` fails with `ValueError`; the body
`{}` parses but lacks the `image` key and fails with `KeyError`. -/
theorem malformed_response_decoding_witness :
    (RegistryClient.get_image "1" { status := 200, body := "not json" }).2
      = .error .valueError ∧
    (RegistryClient.get_image "1" { status := 200, body := "{}" }).2
      = .error (.keyError "image") :=
  ⟨((malformed_response_decoding "1" []
      { status := 200, body := "not json" }).1 rfl).1,
   (((malformed_response_decoding "1" []
      { status := 200, body := "{}" }).2.1 [] rfl).1 rfl)⟩

end Glance
